import Mathlib

/-!
Verification of the Tweeps frontend authentication/session boundary.

This development shallowly embeds the auth-related parts of the Tweeps
repository:
* `frontend/src/lib/auth.ts` — token store (`storeTokens`, `removeTokens`,
  `getAccessToken`), `apiClient`, `login`, `signup`, `logout`;
* `frontend/src/contexts/auth-context.tsx` and its variant (the unnamed
  auth-context file) — the Auth Context state machine;
* `frontend/src/middleware.ts` and its variant (the unnamed middleware
  file) — the edge-layer route guard;
* `frontend/src/app/login/page.tsx` — the login form submission handler.

JavaScript runtime behaviour relevant to the claims is made explicit:
`response.json()` on a non-JSON body raises a `SyntaxError`; a failed
`fetch` rejects with a `TypeError`; `new Error(msg)` carries an
application-chosen message; `x || d` falls back on the empty string;
truthiness of an object field is presence.
-/

namespace Tweeps

/-- A user record, per the `User` interface shared by the frontend files. -/
structure User where
  id : String
  name : String
  email : String
deriving Repr, DecidableEq

/-- The `AuthTokens` interface of `lib/auth.ts`: `access_token` required,
`refresh_token` optional. -/
structure AuthTokens where
  access_token : String
  refresh_token : Option String
deriving Repr, DecidableEq

/-- The slice of `localStorage` that `lib/auth.ts` uses as its Token/Session
Store: the two keys `access_token` and `refresh_token`, each possibly absent
(`localStorage.getItem` returns `null` for an absent key). -/
structure TokenStore where
  access_token : Option String
  refresh_token : Option String
deriving Repr, DecidableEq

/-- A store with neither key present. -/
def emptyStore : TokenStore := { access_token := none, refresh_token := none }

/-- `storeTokens` from `lib/auth.ts` (lines 20-25): always writes
`access_token`; writes `refresh_token` only when the field is present
(truthy) in the argument. -/
def storeTokens (tokens : AuthTokens) (s : TokenStore) : TokenStore :=
  let s1 : TokenStore := { s with access_token := some tokens.access_token }
  match tokens.refresh_token with
  | some r => { s1 with refresh_token := some r }
  | none => s1

/-- `removeTokens` from `lib/auth.ts` (lines 27-30): removes both keys. -/
def removeTokens (_s : TokenStore) : TokenStore :=
  { access_token := none, refresh_token := none }

/-- `getAccessToken` from `lib/auth.ts` (lines 32-34). -/
def getAccessToken (s : TokenStore) : Option String :=
  s.access_token

/-- The fields of a parsed JSON response body that `lib/auth.ts` inspects:
`message`, the field-level `errors` map (modelled as an association list in
insertion order, so `Object.values` is the list of second components),
`tokens` and `user`.  An absent field is `none`; note that in JavaScript a
present-but-empty `errors` object is still truthy, which `some []` models. -/
structure ResponseBody where
  message : Option String
  errors : Option (List (String × String))
  tokens : Option AuthTokens
  user : Option User
deriving Repr, DecidableEq

/-- An HTTP response as `apiClient` observes it: the status code and the
result of `response.json()` — `none` when the body is not valid JSON, in
which case `response.json()` raises a `SyntaxError`. -/
structure HttpResponse where
  status : Nat
  body : Option ResponseBody
deriving Repr, DecidableEq

/-- The `Response.ok` getter: status in the range 200-299. -/
def HttpResponse.isOk (r : HttpResponse) : Bool :=
  200 ≤ r.status && r.status ≤ 299

/-- A JavaScript exception as the auth code can observe it. -/
inductive JsError where
  /-- An `Error` constructed by the application with the given message. -/
  | error (message : String)
  /-- The `SyntaxError` raised by `response.json()` on a non-JSON body: an
  unparsed, engine-generated parse error, not an application message. -/
  | syntaxError
  /-- A `TypeError`: a failed `fetch` (network error), or reading a property
  of `undefined`. -/
  | typeError (message : String)
deriving Repr, DecidableEq

/-- The outcome of the `fetch` call inside `apiClient`: either a response
arrives (any status, any body), or the request never completes and `fetch`
rejects with a `TypeError`. -/
inductive FetchOutcome where
  | response (r : HttpResponse)
  | networkError
deriving Repr, DecidableEq

/-- JavaScript `x || d` for an optional string: the fallback is used when
the field is absent or the empty string (both falsy). -/
def jsOrDefault (x : Option String) (d : String) : String :=
  match x with
  | some m => if m.isEmpty then d else m
  | none => d

/-- `Object.values(data.errors).join(', ')` over the association-list model
of the errors map. -/
def joinErrors (errors : List (String × String)) : String :=
  String.intercalate ", " (errors.map Prod.snd)

/-- The observable result of one `apiClient` call from `lib/auth.ts`
(lines 36-69): the token store afterwards, whether
`window.location.href = '/login'` was assigned, and the settled value —
the parsed body on success, or the raised exception. -/
structure ApiOutcome where
  store : TokenStore
  redirectedToLogin : Bool
  result : Except JsError ResponseBody
deriving Repr

/-- `apiClient` from `lib/auth.ts` (lines 36-69), given the fetch outcome.
In source order: a failed `fetch` propagates its `TypeError` (there is no
try/catch); on status 401 the store is cleared, the browser is sent to
`/login`, and `Error('Session expired. Please login again.')` is thrown;
otherwise `response.json()` runs (raising `SyntaxError` on a non-JSON
body); then on non-2xx, status 400 with a truthy `errors` field throws the
joined error values, any other non-2xx throws `data.message` or the
generic fallback; on 2xx the parsed body is returned. -/
def apiClient (outcome : FetchOutcome) (s : TokenStore) : ApiOutcome :=
  match outcome with
  | .networkError =>
      { store := s, redirectedToLogin := false,
        result := .error (.typeError "Failed to fetch") }
  | .response r =>
      if r.status == 401 then
        { store := removeTokens s, redirectedToLogin := true,
          result := .error (.error "Session expired. Please login again.") }
      else
        match r.body with
        | none =>
            { store := s, redirectedToLogin := false,
              result := .error .syntaxError }
        | some data =>
            if !r.isOk then
              if r.status == 400 && data.errors.isSome then
                { store := s, redirectedToLogin := false,
                  result := .error (.error (joinErrors (data.errors.getD []))) }
              else
                { store := s, redirectedToLogin := false,
                  result := .error (.error (jsOrDefault data.message "An error occurred")) }
            else
              { store := s, redirectedToLogin := false, result := .ok data }

/-- The `LoginCredentials` interface of `lib/auth.ts`. -/
structure LoginCredentials where
  email : String
  password : String
deriving Repr, DecidableEq

/-- The observable result of `login`: the request body it transmitted
(`JSON.stringify(credentials)` serialises the fields verbatim), the token
store afterwards, the redirect flag, and the settled value. -/
structure LoginResult where
  transmitted : LoginCredentials
  store : TokenStore
  redirectedToLogin : Bool
  result : Except JsError ResponseBody
deriving Repr

/-- `login` from `lib/auth.ts` (lines 71-79): posts the credentials as
given (no transformation), and on success runs `storeTokens(data.tokens)`
— which raises a `TypeError` if the 2xx body has no `tokens` field — and
returns the parsed body. -/
def login (credentials : LoginCredentials) (outcome : FetchOutcome)
    (s : TokenStore) : LoginResult :=
  let a := apiClient outcome s
  match a.result with
  | .error e =>
      { transmitted := credentials, store := a.store,
        redirectedToLogin := a.redirectedToLogin, result := .error e }
  | .ok data =>
      match data.tokens with
      | some tokens =>
          { transmitted := credentials, store := storeTokens tokens a.store,
            redirectedToLogin := a.redirectedToLogin, result := .ok data }
      | none =>
          { transmitted := credentials, store := a.store,
            redirectedToLogin := a.redirectedToLogin,
            result := .error (.typeError "Cannot read properties of undefined") }

/-- JavaScript `String.prototype.toLowerCase`, for the ASCII strings this
code handles: each character lower-cased. -/
def jsToLowerCase (s : String) : String :=
  String.mk (s.data.map Char.toLower)

/-- The credentials that `handleSubmit` in `app/login/page.tsx`
(lines 77-80) passes to `login`: the form email lower-cased, the password
verbatim. -/
def handleSubmitCredentials (formEmail formPassword : String) : LoginCredentials :=
  { email := jsToLowerCase formEmail, password := formPassword }

/-- The observable result of `logout`: the token store afterwards, the
redirect flag (a 401 inside the nested `apiClient` still assigns
`window.location.href`), and the error surfaced to the caller, if any. -/
structure LogoutResult where
  store : TokenStore
  redirectedToLogin : Bool
  surfacedError : Option JsError
deriving Repr, DecidableEq

/-- `logout` from `lib/auth.ts` (lines 98-108): `try` the POST via
`apiClient`; `catch` logs any exception without rethrowing; `finally`
`removeTokens()`.  So every exception from the call is swallowed and the
store is cleared on every path. -/
def logout (outcome : FetchOutcome) (s : TokenStore) : LogoutResult :=
  let a := apiClient outcome s
  { store := removeTokens a.store,
    redirectedToLogin := a.redirectedToLogin,
    surfacedError := none }

/-- The Session-state the Auth Context exposes, per the `AuthContextType`
interface of the unnamed auth-context variant, where `user`, `isLoading`
and `isAuthenticated` are three separate `useState` cells. -/
structure AuthState where
  user : Option User
  isLoading : Bool
  isAuthenticated : Bool
deriving Repr, DecidableEq

/-- The initial Auth Context state (unnamed auth-context variant,
lines 23-25): `user = null`, `isLoading = true`,
`isAuthenticated = false`. -/
def initialAuthState : AuthState :=
  { user := none, isLoading := true, isAuthenticated := false }

/-- The Auth Context transitions of the unnamed auth-context variant, one
per observation point of the session lifecycle. -/
inductive AuthEvent where
  /-- `initializeAuth` finds no stored token (lines 84-89). -/
  | initNoToken
  /-- `initializeAuth` or `refreshAuth` resolves with a truthy `result.user`
  (lines 92-94 and 62-64). -/
  | verifySuccess (u : User)
  /-- `initializeAuth` or `refreshAuth` fails to resolve a user: tokens are
  removed, `user` and `isAuthenticated` reset (lines 95-109 and 68-77). -/
  | verifyFailure
  /-- A login or signup flow publishes its resolved user: the consumer calls
  the exposed `setUser`, and the synchronisation effect
  `setIsAuthenticated(!!user)` (lines 115-117) runs. -/
  | setUserSynced (u : Option User)
  /-- `logout` settles: its `finally` clears `user` and `isAuthenticated`
  (lines 132-138). -/
  | logout
  /-- Session expiry: `apiClient` on a 401 assigns
  `window.location.href = '/login'`, reloading the page, so the provider
  remounts in its initial state. -/
  | sessionExpiry
deriving Repr, DecidableEq

/-- Apply one Auth Context transition (unnamed auth-context variant). -/
def applyEvent (e : AuthEvent) (s : AuthState) : AuthState :=
  match e with
  | .initNoToken =>
      { s with user := none, isAuthenticated := false, isLoading := false }
  | .verifySuccess u =>
      { s with user := some u, isAuthenticated := true, isLoading := false }
  | .verifyFailure =>
      { s with user := none, isAuthenticated := false, isLoading := false }
  | .setUserSynced u =>
      { s with user := u, isAuthenticated := u.isSome }
  | .logout =>
      { s with user := none, isAuthenticated := false }
  | .sessionExpiry => initialAuthState

/-- Run the Auth Context from mount through a sequence of transitions. -/
def runAuthEvents (events : List AuthEvent) : AuthState :=
  events.foldl (fun s e => applyEvent e s) initialAuthState

/-- The internal state of `contexts/auth-context.tsx` (the named variant):
only `user` and `isLoading` are `useState` cells. -/
structure AuthContextState where
  user : Option User
  isLoading : Bool
deriving Repr, DecidableEq

/-- The Session-state `contexts/auth-context.tsx` exposes (lines 76-88):
`isAuthenticated` is computed as `!!user` in the provider value. -/
def contextExposed (s : AuthContextState) : AuthState :=
  { user := s.user, isLoading := s.isLoading, isAuthenticated := s.user.isSome }

/-- The effect applied when a verification request of the unnamed
auth-context variant resolves (`initializeAuth` lines 91-100, `refreshAuth`
lines 61-67): applied unconditionally on arrival — the code carries no
sequence number, no `AbortController`, and no staleness check. -/
def applyVerifyResolution (result : Option User) (s : AuthState) : AuthState :=
  match result with
  | some u => applyEvent (.verifySuccess u) s
  | none => applyEvent .verifyFailure s

/-- Final Auth Context state when verification request A is issued, request
B is issued before A resolves, B's resolution arrives first and A's second:
the single-threaded event loop applies each resolution as it arrives. -/
def finalStateBThenA (rA rB : Option User) (s : AuthState) : AuthState :=
  applyVerifyResolution rA (applyVerifyResolution rB s)

/-- `publicPaths` of `frontend/src/middleware.ts` (line 4). -/
def publicPaths : List String :=
  ["/", "/login", "/signup", "/forgot-password"]

/-- `publicPaths` of the unnamed middleware variant (line 4). -/
def publicPathsV2 : List String :=
  ["/", "/login", "/signup", "/forgot-password", "/cart"]

/-- The response a middleware run returns. -/
inductive MwAction where
  /-- `NextResponse.next()`: the navigation is allowed. -/
  | next
  /-- `NextResponse.next()` with `response.cookies.delete('session')`. -/
  | nextDeleteSession
  /-- Redirect to `/dashboard`. -/
  | redirectDashboard
  /-- Redirect to `/login` with `searchParams.set('from', fromPath)`. -/
  | redirectLoginFrom (fromPath : String)
deriving Repr, DecidableEq

/-- What one middleware run did: the returned response, and whether a
server-side verify call (`fetch` of `/api/auth/verify`) was issued. -/
structure MwResult where
  action : MwAction
  verifyCalled : Bool
deriving Repr, DecidableEq

/-- `middleware` from `frontend/src/middleware.ts` (lines 6-24), given the
`access_token` cookie value and the pathname.  It performs no network
call: decisions rest on cookie presence alone. -/
def middlewareV1 (token : Option String) (pathname : String) : MwResult :=
  if publicPaths.contains pathname then
    if token.isSome && (pathname == "/login" || pathname == "/signup") then
      { action := .redirectDashboard, verifyCalled := false }
    else
      { action := .next, verifyCalled := false }
  else
    if token.isNone then
      { action := .redirectLoginFrom pathname, verifyCalled := false }
    else
      { action := .next, verifyCalled := false }

/-- The outcome of the verify `fetch` the unnamed middleware variant makes. -/
inductive VerifyOutcome where
  /-- The verify response arrived with `response.ok`. -/
  | ok
  /-- The verify response arrived non-2xx. -/
  | notOk
  /-- The verify `fetch` threw (network error). -/
  | networkError
deriving Repr, DecidableEq

/-- `middleware` from the unnamed middleware variant (lines 6-64), given
the outcome the verify endpoint would produce for the session cookie.  On
public auth paths with a session: verify, redirect to `/dashboard` when ok,
fall through to `next` when non-2xx, and `next` while deleting the cookie
when the fetch throws.  On protected paths: no session redirects to login
with `from`; with a session, verify and allow only on ok, redirecting to
login with `from` on non-2xx or a thrown fetch. -/
def middlewareV2 (verify : VerifyOutcome) (session : Option String)
    (pathname : String) : MwResult :=
  if publicPathsV2.contains pathname then
    if (pathname == "/login" || pathname == "/signup") && session.isSome then
      match verify with
      | .ok => { action := .redirectDashboard, verifyCalled := true }
      | .notOk => { action := .next, verifyCalled := true }
      | .networkError => { action := .nextDeleteSession, verifyCalled := true }
    else
      { action := .next, verifyCalled := false }
  else
    match session with
    | none => { action := .redirectLoginFrom pathname, verifyCalled := false }
    | some _ =>
      match verify with
      | .ok => { action := .next, verifyCalled := true }
      | .notOk => { action := .redirectLoginFrom pathname, verifyCalled := true }
      | .networkError => { action := .redirectLoginFrom pathname, verifyCalled := true }

/-- Uppercase hexadecimal digit, for percent-encoding. -/
def hexDigit (n : Nat) : Char :=
  if n < 10 then Char.ofNat (48 + n) else Char.ofNat (55 + n)

/-- One character of `URLSearchParams` serialisation
(application/x-www-form-urlencoded, for the ASCII characters that appear
in route pathnames): alphanumerics and `*-._` stay, space becomes `+`,
anything else becomes `%HH`. -/
def formEncodeChar (c : Char) : String :=
  if c.isAlphanum || c == '*' || c == '-' || c == '.' || c == '_' then
    String.singleton c
  else if c == ' ' then "+"
  else
    String.mk ['%', hexDigit (c.toNat / 16), hexDigit (c.toNat % 16)]

/-- `URLSearchParams` serialisation of a string value. -/
def formEncode (s : String) : String :=
  String.join (s.data.map formEncodeChar)

/-- The URL a middleware redirect response points at, as
`loginUrl.searchParams.set('from', pathname)` serialises it. -/
def redirectUrlString : MwAction → String
  | .redirectLoginFrom p => "/login?from=" ++ formEncode p
  | .redirectDashboard => "/dashboard"
  | .next => ""
  | .nextDeleteSession => ""

/-- Whether a pattern occurs as a contiguous substring of a string, both
given as character lists. -/
def hasSubstring (pat : List Char) : List Char → Bool
  | [] => pat.isEmpty
  | c :: rest => pat.isPrefixOf (c :: rest) || hasSubstring pat rest

/-- Whether the `config.matcher` of `frontend/src/middleware.ts` (line 36)
excludes a pathname from the middleware entirely: the negative lookahead
rejects paths whose remainder after the leading `/` starts with `api`,
`_next/static`, `_next/image`, `favicon.ico` or `public`, or contains
`.svg`, `.gif` or `.png`. -/
def matcherBypasses (pathname : String) : Bool :=
  let rest := pathname.data.drop 1
  "api".data.isPrefixOf rest || "_next/static".data.isPrefixOf rest ||
  "_next/image".data.isPrefixOf rest || "favicon.ico".data.isPrefixOf rest ||
  "public".data.isPrefixOf rest ||
  hasSubstring ".svg".data rest || hasSubstring ".gif".data rest ||
  hasSubstring ".png".data rest

/-- Whether a settled `apiClient` value is a failure constructed by the
application itself (`new Error(message)`), as opposed to a raw
engine-generated exception (`SyntaxError`, `TypeError`) or a success. -/
def isAppError : Except JsError ResponseBody → Bool
  | .error (.error _) => true
  | _ => false

/-- A concrete successful login body: Scenario 1 of the specification. -/
def okLoginBody : ResponseBody :=
  { message := none, errors := none,
    tokens := some { access_token := "abc", refresh_token := none },
    user := some { id := "1", name := "A", email := "user@example.com" } }

/-- A concrete 400 body carrying a field-level errors map: Scenario 4 of
the specification. -/
def emailTakenBody : ResponseBody :=
  { message := none, errors := some [("email", "already taken")],
    tokens := none, user := none }

/-- A concrete JSON body with none of the probed fields present. -/
def bareBody : ResponseBody :=
  { message := none, errors := none, tokens := none, user := none }

end Tweeps

namespace Tweeps

/-! ## Helper lemmas -/

/-- Every Auth Context transition of the unnamed variant re-establishes the
agreement between `isAuthenticated` and `user`, whatever the prior state. -/
theorem applyEvent_isAuthenticated (e : AuthEvent) (s : AuthState) :
    (applyEvent e s).isAuthenticated = (applyEvent e s).user.isSome := by
  cases e <;> simp [applyEvent, initialAuthState]

/-- The agreement between `isAuthenticated` and `user` is preserved along
any run of Auth Context transitions. -/
theorem foldl_applyEvent_invariant (events : List AuthEvent) (s : AuthState)
    (h : s.isAuthenticated = s.user.isSome) :
    (events.foldl (fun s e => applyEvent e s) s).isAuthenticated =
      (events.foldl (fun s e => applyEvent e s) s).user.isSome := by
  induction events generalizing s with
  | nil => exact h
  | cons e es ih => exact ih _ (applyEvent_isAuthenticated e s)

/-! ## Claim theorems -/

/-- C1: at every observation point of the Auth Context's Session-state —
after any sequence of lifecycle transitions (initialization, verify
resolution, login, signup, logout, session expiry) in the
explicit-three-cells variant, and for every exposed value of the named
`auth-context.tsx` variant — `isAuthenticated` is `true` exactly when
`user` is not null. -/
theorem authContext_isAuthenticated_iff_user (events : List AuthEvent) :
    ((runAuthEvents events).isAuthenticated = true ↔ (runAuthEvents events).user ≠ none) ∧
    ∀ c : AuthContextState,
      ((contextExposed c).isAuthenticated = true ↔ (contextExposed c).user ≠ none) := by
  constructor
  · have h := foldl_applyEvent_invariant events initialAuthState rfl
    simp only [runAuthEvents]
    rw [h]
    exact Option.isSome_iff_ne_none
  · intro c
    simpa [contextExposed] using (Option.isSome_iff_ne_none (o := c.user))

/-- C2: for every outcome of the server-side logout call — 2xx success,
any non-2xx response (JSON body or not, 401 included), or a network error
— after `logout()` resolves the Token/Session Store holds neither the
access nor the refresh token, and no error is surfaced to the caller. -/
theorem logout_always_clears_and_swallows (outcome : FetchOutcome) (s : TokenStore) :
    getAccessToken (logout outcome s).store = none ∧
    (logout outcome s).store.refresh_token = none ∧
    (logout outcome s).surfacedError = none := by
  refine ⟨?_, rfl, rfl⟩
  simp [logout, getAccessToken, removeTokens]

/-- C3: every `apiClient` call whose response has HTTP status 401 clears
both keys of the Token/Session Store, signals the navigation-to-login side
effect, and throws the session-expired error to the caller. -/
theorem apiClient_401_forces_logout (r : HttpResponse) (s : TokenStore)
    (h : r.status = 401) :
    (apiClient (.response r) s).store = emptyStore ∧
    (apiClient (.response r) s).redirectedToLogin = true ∧
    (apiClient (.response r) s).result =
      .error (.error "Session expired. Please login again.") := by
  simp [apiClient, h, removeTokens, emptyStore]

/-- Witness for C3 at a concrete 401 response with a stored token. -/
theorem apiClient_401_forces_logout_witness :
    (apiClient (.response { status := 401, body := none })
        { access_token := some "tok", refresh_token := some "ref" }).store = emptyStore ∧
    (apiClient (.response { status := 401, body := none })
        { access_token := some "tok", refresh_token := some "ref" }).redirectedToLogin = true ∧
    (apiClient (.response { status := 401, body := none })
        { access_token := some "tok", refresh_token := some "ref" }).result =
      .error (.error "Session expired. Please login again.") :=
  apiClient_401_forces_logout { status := 401, body := none }
    { access_token := some "tok", refresh_token := some "ref" } rfl

/-- C10: when a refresh token is stored, `storeTokens` with a tokens object
lacking the `refresh_token` field overwrites only the access token and
keeps the stored refresh token; `storeTokens` never empties the refresh
key, and only `removeTokens` does. -/
theorem storeTokens_preserves_refresh (s : TokenStore) (a r : String)
    (h : s.refresh_token = some r) :
    storeTokens { access_token := a, refresh_token := none } s =
      { access_token := some a, refresh_token := some r } ∧
    (∀ tokens : AuthTokens, (storeTokens tokens s).refresh_token.isSome = true) ∧
    (removeTokens s).refresh_token = none := by
  refine ⟨?_, ?_, rfl⟩
  · simp [storeTokens, h]
  · intro tokens
    cases htok : tokens.refresh_token <;> simp [storeTokens, htok, h]

/-- Witness for C10: storing an access-only tokens object over a store
holding refresh token "R" keeps "R". -/
theorem storeTokens_preserves_refresh_witness :
    storeTokens { access_token := "new", refresh_token := none }
        { access_token := some "old", refresh_token := some "R" } =
      { access_token := some "new", refresh_token := some "R" } :=
  (storeTokens_preserves_refresh
    { access_token := some "old", refresh_token := some "R" } "new" "R" rfl).1

/-- C4 counterexample: a 500 response whose body is not valid JSON makes
`apiClient` fail with the raw `SyntaxError` from `response.json()` — an
unparsed engine exception, not an application-constructed error with a
message. -/
theorem apiClient_nonJson_raw_error :
    (apiClient (.response { status := 500, body := none }) emptyStore).result =
      .error .syntaxError ∧
    isAppError (apiClient (.response { status := 500, body := none }) emptyStore).result =
      false :=
  ⟨rfl, rfl⟩

/-- C4 amended: for every response whose body does parse as JSON,
`apiClient` either succeeds or fails with an application-constructed
`Error` carrying a string message; the unguarded `response.json()` means a
non-JSON body instead escapes as the raw parse error. -/
theorem apiClient_json_failures_typed (r : HttpResponse) (s : TokenStore)
    (data : ResponseBody) (hbody : r.body = some data) :
    isAppError (apiClient (.response r) s).result = true ∨
    (apiClient (.response r) s).result = .ok data := by
  by_cases h401 : r.status == 401
  · left
    simp [apiClient, h401, isAppError]
  · simp only [apiClient, h401, Bool.false_eq_true, if_false, hbody]
    by_cases hok : r.isOk
    · right
      simp [hok]
    · left
      simp only [hok, Bool.not_false, if_true]
      by_cases herr : r.status == 400 && data.errors.isSome
      · simp [herr, isAppError]
      · simp [herr, isAppError]

/-- Witness for C4's amended theorem at a concrete 500 response with an
empty JSON object body. -/
theorem apiClient_json_failures_typed_witness :
    isAppError (apiClient (.response { status := 500, body := some bareBody })
        emptyStore).result = true ∨
    (apiClient (.response { status := 500, body := some bareBody })
        emptyStore).result = .ok bareBody :=
  apiClient_json_failures_typed { status := 500, body := some bareBody }
    emptyStore bareBody rfl

/-- C5 counterexample: a 422 response whose JSON body carries the errors
map `{email: "already taken"}` does not fail with the joined error values
— the code only consults the errors map when the status is exactly 400 —
but with the generic fallback message. -/
theorem apiClient_422_errors_ignored :
    (apiClient (.response { status := 422, body := some emailTakenBody })
        emptyStore).result = .error (.error "An error occurred") ∧
    ("An error occurred" : String) ≠ joinErrors [("email", "already taken")] :=
  ⟨rfl, by decide⟩

/-- C5 amended: for a non-2xx, non-401 response with a parsed JSON body,
`apiClient` fails with the joined error-map values exactly when the status
is 400 and the body carries an errors map; every other such response fails
with the body's `message` field, or the generic fallback when that field
is absent or empty. -/
theorem apiClient_non2xx_dispatch (r : HttpResponse) (s : TokenStore)
    (data : ResponseBody) (hbody : r.body = some data) (h401 : r.status ≠ 401)
    (hok : r.isOk = false) :
    (∀ es, r.status = 400 → data.errors = some es →
        (apiClient (.response r) s).result = .error (.error (joinErrors es))) ∧
    ((r.status = 400 → data.errors = none) →
        (apiClient (.response r) s).result =
          .error (.error (jsOrDefault data.message "An error occurred"))) := by
  constructor
  · intro es h400 herr
    simp [apiClient, hbody, h401, hok, h400, herr]
  · intro hnot
    by_cases h400 : r.status = 400
    · have herr : data.errors = none := hnot h400
      simp [apiClient, hbody, h401, hok, h400, herr]
    · simp [apiClient, hbody, h401, hok, h400]

/-- Witness for C5's amended theorem: Scenario 4's concrete 400 response
with `{errors: {email: "already taken"}}` yields the joined message
"already taken", and a concrete 500 response with no probed fields yields
the generic fallback. -/
theorem apiClient_non2xx_dispatch_witness :
    (apiClient (.response { status := 400, body := some emailTakenBody })
        emptyStore).result = .error (.error "already taken") ∧
    (apiClient (.response { status := 500, body := some bareBody })
        emptyStore).result = .error (.error "An error occurred") := by
  constructor
  · exact (apiClient_non2xx_dispatch { status := 400, body := some emailTakenBody }
      emptyStore emailTakenBody rfl (by decide) rfl).1
      [("email", "already taken")] rfl rfl
  · exact (apiClient_non2xx_dispatch { status := 500, body := some bareBody }
      emptyStore bareBody rfl (by decide) rfl).2 (by intro h; cases h)

/-- C6 counterexample: the frontend's installed middleware
(`frontend/src/middleware.ts`) allows a navigation to the protected path
`/dashboard` on mere presence of the `access_token` cookie, issuing no
server-side verify call. -/
theorem middlewareV1_grants_without_verify :
    (middlewareV1 (some "token") "/dashboard").verifyCalled = false ∧
    (middlewareV1 (some "token") "/dashboard").action = .next :=
  ⟨rfl, rfl⟩

/-- C6 amended: the unnamed middleware variant does re-verify — on every
protected (non-public) path with a session cookie present it issues the
server-side verify call before deciding, allows the navigation only when
the verify response is ok, and redirects back to login (carrying the
requested path) when it is not. -/
theorem middlewareV2_protected_verifies (verify : VerifyOutcome)
    (tok pathname : String)
    (hpub : publicPathsV2.contains pathname = false) :
    (middlewareV2 verify (some tok) pathname).verifyCalled = true ∧
    (middlewareV2 .ok (some tok) pathname).action = .next ∧
    (middlewareV2 .notOk (some tok) pathname).action = .redirectLoginFrom pathname := by
  have hmem : pathname ∉ publicPathsV2 := by simpa using hpub
  refine ⟨?_, ?_, ?_⟩
  · cases verify <;> simp [middlewareV2, hmem]
  · simp [middlewareV2, hmem]
  · simp [middlewareV2, hmem]

/-- Witness for C6's amended theorem at `/dashboard` with a session cookie. -/
theorem middlewareV2_protected_verifies_witness :
    (middlewareV2 .ok (some "tok") "/dashboard").verifyCalled = true ∧
    (middlewareV2 .ok (some "tok") "/dashboard").action = .next ∧
    (middlewareV2 .notOk (some "tok") "/dashboard").action =
      .redirectLoginFrom "/dashboard" :=
  middlewareV2_protected_verifies .ok "tok" "/dashboard" (by decide)

/-- C7: in both middleware variants, a navigation to a protected
(non-public, non-bypassed) path with no credential cookie redirects to the
login entry point with the originally requested path as the `from` query
parameter. -/
theorem middleware_no_credential_redirects (pathname : String)
    (hpub : publicPaths.contains pathname = false)
    (hpub2 : publicPathsV2.contains pathname = false)
    (_hbyp : matcherBypasses pathname = false) :
    (middlewareV1 none pathname).action = .redirectLoginFrom pathname ∧
    ∀ verify, (middlewareV2 verify none pathname).action = .redirectLoginFrom pathname := by
  have hmem : pathname ∉ publicPaths := by simpa using hpub
  have hmem2 : pathname ∉ publicPathsV2 := by simpa using hpub2
  constructor
  · simp [middlewareV1, hmem]
  · intro verify
    simp [middlewareV2, hmem2]

/-- Witness for C7: Scenario 2 — navigating to `/dashboard` with no
credential redirects to `/login?from=%2Fdashboard`. -/
theorem middleware_no_credential_redirects_witness :
    (middlewareV1 none "/dashboard").action = .redirectLoginFrom "/dashboard" ∧
    redirectUrlString (middlewareV1 none "/dashboard").action =
      "/login?from=%2Fdashboard" := by
  have h := middleware_no_credential_redirects "/dashboard"
    (by decide) (by decide) (by decide)
  refine ⟨h.1, ?_⟩
  rw [h.1]
  rfl

/-- C8, code evaluated at the failing input: the Auth Context applies each
verification resolution unconditionally on arrival, so when request A
(resolving user "1") overlaps request B (resolving user "2") and B settles
first, the final state carries A's stale user, not B's — there is no
stale-response discard. -/
theorem staleVerify_resolution_overwrites :
    (finalStateBThenA
        (some { id := "1", name := "A", email := "a@tweeps.test" })
        (some { id := "2", name := "B", email := "b@tweeps.test" })
        initialAuthState).user =
      some { id := "1", name := "A", email := "a@tweeps.test" } ∧
    ({ id := "1", name := "A", email := "a@tweeps.test" } : User) ≠
      { id := "2", name := "B", email := "b@tweeps.test" } :=
  ⟨rfl, by decide⟩

/-- C9 counterexample: the Auth Service's `login` transmits the email it
was given verbatim — called with a mixed-case email, the transmitted email
is not lower-cased. -/
theorem login_transmits_email_verbatim :
    (login { email := "USER@Example.com", password := "secret123" }
        (.response { status := 200, body := some okLoginBody })
        emptyStore).transmitted.email = "USER@Example.com" ∧
    ("USER@Example.com" : String) ≠ jsToLowerCase "USER@Example.com" :=
  ⟨rfl, by decide⟩

/-- C9 amended: the lower-casing is performed by the login form's
`handleSubmit` before it invokes the Auth Service, so the email transmitted
through the form flow is the lower-cased form input; and on a 2xx response
carrying tokens, `login` stores the returned credential in the
Token/Session Store and returns the resolved body (user included) to the
caller. -/
theorem login_flow_lowercases_and_stores (formEmail formPassword : String)
    (r : HttpResponse) (data : ResponseBody) (tokens : AuthTokens) (s : TokenStore)
    (hbody : r.body = some data) (hok : r.isOk = true)
    (htok : data.tokens = some tokens) :
    (login (handleSubmitCredentials formEmail formPassword)
        (.response r) s).transmitted.email = jsToLowerCase formEmail ∧
    (login (handleSubmitCredentials formEmail formPassword)
        (.response r) s).store = storeTokens tokens s ∧
    (login (handleSubmitCredentials formEmail formPassword)
        (.response r) s).result = .ok data := by
  have h401 : ¬ ((r.status == 401) = true) := by
    simp only [HttpResponse.isOk, Bool.and_eq_true, decide_eq_true_eq] at hok
    simp only [beq_iff_eq]
    omega
  refine ⟨?_, ?_, ?_⟩ <;>
    simp [login, apiClient, hbody, h401, hok, htok, handleSubmitCredentials]

/-- Witness for C9's amended theorem: Scenario 1 — the form email
`USER@Example.com` is transmitted as `user@example.com`, and the 200
response stores access token "abc" and returns the body. -/
theorem login_flow_lowercases_and_stores_witness :
    (login (handleSubmitCredentials "USER@Example.com" "secret123")
        (.response { status := 200, body := some okLoginBody })
        emptyStore).transmitted.email = "user@example.com" ∧
    (login (handleSubmitCredentials "USER@Example.com" "secret123")
        (.response { status := 200, body := some okLoginBody })
        emptyStore).store =
      { access_token := some "abc", refresh_token := none } ∧
    (login (handleSubmitCredentials "USER@Example.com" "secret123")
        (.response { status := 200, body := some okLoginBody })
        emptyStore).result = .ok okLoginBody := by
  have h := login_flow_lowercases_and_stores "USER@Example.com" "secret123"
    { status := 200, body := some okLoginBody } okLoginBody
    { access_token := "abc", refresh_token := none } emptyStore rfl rfl rfl
  refine ⟨?_, ?_, h.2.2⟩
  · rw [h.1]
    decide
  · rw [h.2.1]
    decide

end Tweeps
